import Mathlib

/-
Shallow embedding of the deadline-mcp-server documentation engine.

Sources embedded here:
  * the universal HTML indexer (UniversalDocIndexer): cleanText,
    isNavigationPage, extractKeywords, extractSection, extractCodeExamples,
    processHtmlFile, initDatabase, indexAllDocumentation, insertDocument;
  * src/search.ts (DeadlineDocSearch): searchDocumentation, getDocumentById,
    browseSections, getStats and its regex-based extractCodeExamples;
  * src/remote-search.ts (RemoteDeadlineSearch): searchDocumentation,
    getDocumentById, getDocumentsBySection and the curated result table.

Modelling conventions:
  * JavaScript strings are Lean Strings; `.length` is the character count
    (all literals involved are ASCII, where the two notions agree).
  * The SQLite store is a pair of row lists (documents table and its fts5
    projection, the latter populated by the AFTER INSERT trigger).
    Row order models rowid (insertion) order.
  * The `keywords` column stores JSON.stringify of a string array and every
    reader applies JSON.parse; that round trip is the identity on string
    arrays, so the column is modelled directly as List String.
  * The indexer creates the documents table with a column named `docType`
    (CREATE TABLE in initDatabase).  The reader in src/search.ts instead
    refers to `doc_type` in several SQL statements; SQLite identifier
    lookup is case-insensitive but not underscore-insensitive, so those
    statements fail to prepare with "no such column" and the affected
    operations reject for every input.  Where a statement only does
    SELECT * (getDocumentById, unfiltered browseSections), the JS property
    access row.doc_type yields undefined, modelled as Option.none.
  * A JS bracket read on an object literal (baseUrls[docType] in the
    remote backend) walks the prototype chain: besides the own keys it
    finds the inherited Object.prototype members, which are truthy, so the
    falsy-only fallback of the following || does not fire for them.
-/

/-! ## JavaScript character classes and string helpers -/

/-- JS regex `\s` (whitespace class), as used by `String.trim` too:
space, tab, LF, VT, FF, CR, NBSP, U+1680, U+2000..U+200A, LS, PS,
U+202F, U+205F, U+3000 and the BOM U+FEFF. -/
def isJsWs (c : Char) : Bool :=
  c = ' ' || c = '\t' || c = '\n' || c = '\x0b' || c = '\x0c' || c = '\r' ||
  c = Char.ofNat 0xa0 || c = Char.ofNat 0x1680 ||
  (Char.ofNat 0x2000 ≤ c && c ≤ Char.ofNat 0x200a) ||
  c = Char.ofNat 0x2028 || c = Char.ofNat 0x2029 ||
  c = Char.ofNat 0x202f || c = Char.ofNat 0x205f ||
  c = Char.ofNat 0x3000 || c = Char.ofNat 0xfeff

/-- JS regex `\w`: ASCII letters, digits, underscore. -/
def isWordChar (c : Char) : Bool :=
  ('a' ≤ c && c ≤ 'z') || ('A' ≤ c && c ≤ 'Z') || ('0' ≤ c && c ≤ '9') || c = '_'

/-- The punctuation kept by cleanText's strip step: `- . , ; : ( ) { } [ ]`. -/
def isAllowedPunct (c : Char) : Bool :=
  c = '-' || c = '.' || c = ',' || c = ';' || c = ':' ||
  c = '(' || c = ')' || c = Char.ofNat 123 || c = Char.ofNat 125 ||
  c = '[' || c = ']'

/-- Character class of cleanText's third replace, `[\w\s\-.,;:(){}[\]]`:
characters in the class are kept, all others removed. -/
def keepChar (c : Char) : Bool :=
  isWordChar c || isJsWs c || isAllowedPunct c

/-- JS `String.prototype.includes`: contiguous substring containment. -/
def jsIncludes (hay needle : String) : Bool :=
  hay.data.tails.any (fun t => needle.data.isPrefixOf t)

/-- JS `String.prototype.toLowerCase` restricted to ASCII, which is all the
code ever lowercases against (every needle compared is ASCII). -/
def jsToLower (s : String) : String :=
  String.mk (s.data.map Char.toLower)

/-- Leading/trailing JS-whitespace removal on a char list: first the trailing
end (via reverse), then the leading end.  Order is irrelevant to the result;
this order is convenient for the lemmas below. -/
def jsTrimList (l : List Char) : List Char :=
  ((l.reverse.dropWhile isJsWs).reverse).dropWhile isJsWs

/-- JS `String.prototype.trim`. -/
def jsTrimStr (s : String) : String :=
  String.mk (jsTrimList s.data)

/-! ## cleanText -/

/-- Step 1 of cleanText, `replace(/\s+/g, ' ')`: every maximal run of
whitespace becomes a single space.  The flag records whether the previous
character was part of a whitespace run. -/
def collapseWsGo : Bool → List Char → List Char
  | _, [] => []
  | prevWs, c :: cs =>
    if isJsWs c then
      if prevWs then collapseWsGo true cs else ' ' :: collapseWsGo true cs
    else c :: collapseWsGo false cs

def collapseWs (l : List Char) : List Char := collapseWsGo false l

/-- Step 2 of cleanText, `replace(/\n\s*\n/g, '\n')`.  At a literal newline
the regex greedily takes whitespace and backtracks to a final newline, so a
match exists exactly when the maximal whitespace run after the newline
contains another newline, and it extends to the last newline of that run.
(After step 1 no newline survives, so in the pipeline this is the identity;
it is still modelled faithfully.)  Fuel is the list length. -/
def replaceNlRunsGo : Nat → List Char → List Char
  | 0, l => l
  | _ + 1, [] => []
  | fuel + 1, c :: cs =>
    if c = '\n' then
      let run := cs.takeWhile isJsWs
      if run.contains '\n' then
        let j := run.reverse.findIdx (fun d => d = '\n')
        let p := run.length - 1 - j
        '\n' :: replaceNlRunsGo fuel (cs.drop (p + 1))
      else c :: replaceNlRunsGo fuel cs
    else c :: replaceNlRunsGo fuel cs

def replaceNlRuns (l : List Char) : List Char := replaceNlRunsGo l.length l

/-- `cleanText` of the indexer: collapse whitespace runs, collapse newline
runs, strip characters outside the safe class, trim. -/
def cleanText (s : String) : String :=
  String.mk (jsTrimList (List.filter keepChar (replaceNlRuns (collapseWs s.data))))

/-! ## Navigation-page heuristic -/

/-- The closed indicator list of isNavigationPage. -/
def navIndicators : List String :=
  ["Member List", "Class Members", "File List", "Directory Reference",
   "Class List", "Namespace List", "Function Index", "Variable Index",
   "Index", "Contents", "Table of Contents"]

/-- `isNavigationPage(title, content)`: `content` is the raw HTML text of the
file.  The disjunct about "list of" sits inside the `some` callback but does
not depend on the indicator. -/
def isNavigationPage (title content : String) : Bool :=
  let titleLower := jsToLower title
  let contentLower := jsToLower content
  navIndicators.any (fun ind =>
    jsIncludes titleLower (jsToLower ind) ||
    (jsIncludes contentLower "list of" && decide (contentLower.length < 1000)))

/-! ## Keyword tagger -/

/-- Insertion-ordered de-duplication, the `[...new Set(xs)]` idiom. -/
def dedupKeepFirst (l : List String) : List String :=
  l.foldl (fun acc x => if acc.contains x then acc else acc ++ [x]) []

/-- The fixed Deadline vocabulary of extractKeywords, in source order. -/
def deadlineTerms : List String :=
  ["deadline", "render", "job", "worker", "slave", "submit", "plugin",
   "repository", "monitor", "pool", "group", "limit", "task", "frame",
   "script", "python", "maya", "max", "nuke", "houdini", "blender",
   "deadlinecon", "clientutils", "repositoryutils", "jobutils",
   "farm", "queue", "priority", "timeout", "event", "command"]

/-- The fixed programming vocabulary of extractKeywords. -/
def progTerms : List String :=
  ["function", "class", "method", "parameter", "return", "import", "module"]

/-- `extractKeywords(content, title)`: case-insensitive substring containment
of each vocabulary term in title + ' ' + content, deadline terms first, then
programming terms, de-duplicated (a no-op here: the terms are distinct). -/
def extractKeywords (content title : String) : List String :=
  let allText := jsToLower (title ++ " " ++ content)
  dedupKeepFirst ((deadlineTerms ++ progTerms).filter (fun t => jsIncludes allText t))

/-! ## Section extraction -/

/-- Splitting a string at every character satisfying `p`, JS
`String.prototype.split` with a single-character-class regex. -/
def splitOnPredGo (p : Char → Bool) (acc : List Char) : List Char → List String
  | [] => [String.mk acc.reverse]
  | c :: cs => if p c then String.mk acc.reverse :: splitOnPredGo p [] cs
               else splitOnPredGo p (c :: acc) cs

def splitOnPred (p : Char → Bool) (s : String) : List String :=
  splitOnPredGo p [] s.data

/-- `filePath.split(/[/\\]/)`. -/
def splitPath (s : String) : List String :=
  splitOnPred (fun c => c = '/' || c = '\\') s

/-- Every dash and every underscore replaced by a space (the two global
`replace` calls at the end of extractSection's path branch). -/
def dashUnderscoreToSpace (s : String) : String :=
  String.mk (s.data.map (fun c => if c = '-' then ' ' else if c = '_' then ' ' else c))

def isDashChar (c : Char) : Bool :=
  c = '-' || c = Char.ofNat 0x2013 || c = Char.ofNat 0x2014

/-- Group 1 of `title.match(/^(.+?)\s*[-–—]\s*(.+)$/)`.  The lazy group grows
one character at a time; for a given split point the match succeeds exactly
when, after skipping whitespace, a dash character follows with at least one
character after it.  (Titles reaching this code are cleanText outputs, hence
newline-free, so `.` matching any character is faithful.) -/
def titleDashGo (acc : List Char) : List Char → Option (List Char)
  | [] => none
  | c :: cs =>
    match cs.dropWhile isJsWs with
    | d :: t =>
      if isDashChar d && !t.isEmpty then some (acc ++ [c])
      else titleDashGo (acc ++ [c]) cs
    | [] => titleDashGo (acc ++ [c]) cs

def titleDashMatch (title : String) : Option String :=
  (titleDashGo [] title.data).map (fun g1 => String.mk g1)

/-- `extractSection(title, filePath)`: parent-directory name when usable,
else the part of the title before a dash, else the empty string. -/
def extractSection (title filePath : String) : String :=
  let parts := splitPath filePath
  let fromPath : Option String :=
    if parts.length > 1 then
      match parts.get? (parts.length - 2) with
      | some sec =>
        if sec ≠ "" && sec ≠ "manual" && sec ≠ "html" then
          some (dashUnderscoreToSpace sec)
        else none
      | none => none
    else none
  match fromPath with
  | some s => s
  | none =>
    match titleDashMatch title with
    | some g1 => jsTrimStr g1
    | none => ""

/-! ## HTML file abstraction and document extraction -/

/-- What the node-html-parser front end hands the indexer for one file.
DOM selection itself is abstracted into these fields. -/
structure HtmlFile where
  /-- Text of the `title` element, when present. -/
  titleTag : Option String
  /-- Text of the first `h1` element, when present. -/
  h1 : Option String
  /-- Raw text of the first matching content container after the non-content
  regions (nav, sidebar, footer, ...) are removed; `none` when neither a
  container nor a `body` exists, in which case extractMainContent yields "". -/
  mainText : Option String
  /-- The raw HTML text of the whole file (isNavigationPage's second input). -/
  rawHtml : String
  /-- Raw texts of the elements matched by the code selectors, in
  selector-priority then document order (duplicates possible). -/
  codeTexts : List String
  /-- `path.basename(filePath, ".html")`. -/
  fileName : String
  filePath : String
  /-- `path.relative(config.docsPath, filePath)`. -/
  relativePath : String

/-- Title resolution of processHtmlFile: prefer a nonempty-after-trim `h1`,
else the `title` element, else the empty string. -/
def resolveTitle (h : HtmlFile) : String :=
  let fromTag := match h.titleTag with
    | some t => cleanText t
    | none => ""
  match h.h1 with
  | some t => if jsTrimStr t ≠ "" then cleanText t else fromTag
  | none => fromTag

/-- `extractMainContent`: the chosen container's text, cleaned; "" when no
container and no body exist. -/
def extractMainContent (h : HtmlFile) : String :=
  match h.mainText with
  | some t => cleanText t
  | none => ""

/-- The indexer's extractCodeExamples: keep code-element texts whose raw
length lies in (20, 2000), clean each, de-duplicate. -/
def indexerExtractCodeExamples (h : HtmlFile) : List String :=
  dedupKeepFirst
    ((h.codeTexts.filter (fun c => 20 < c.length && c.length < 2000)).map cleanText)

/-- `.replace(/\\/g, '/')`. -/
def slashify (s : String) : String :=
  String.mk (s.data.map (fun c => if c = '\\' then '/' else c))

/-- The document record built by processHtmlFile and handed to
insertDocument (its `docType` is always set by the indexer). -/
structure Doc where
  id : String
  title : String
  content : String
  sectionLabel : String
  docType : String
  url : String
  keywords : List String
  codeExamples : List String
deriving DecidableEq

/-- The pure part of `processHtmlFile(filePath, docType)`: `none` when the
page is rejected (navigation page, or content shorter than 50 characters
after normalization), otherwise the document that will be inserted. -/
def extractDocument (h : HtmlFile) (docType : String) : Option Doc :=
  let title := resolveTitle h
  if isNavigationPage title h.rawHtml then none
  else
    let content := extractMainContent h
    if content.length < 50 then none
    else
      let keywords := extractKeywords content title
      let codeExamples := indexerExtractCodeExamples h
      let docId := docType ++ ":" ++ slashify h.relativePath
      let sectionLabel := extractSection title h.filePath
      some
        { id := docId,
          title := if title = "" then h.fileName else title,
          content := content ++ " " ++ String.intercalate " " codeExamples,
          sectionLabel := sectionLabel,
          docType := docType,
          url := slashify h.relativePath,
          keywords := keywords,
          codeExamples := codeExamples }

/-! ## The SQLite store -/

/-- One row of the documents table, in column order
(id, title, content, section, docType, url, keywords). -/
structure Row where
  id : String
  title : String
  content : String
  sectionLabel : String
  docType : String
  url : String
  keywords : List String
deriving DecidableEq

/-- One row of the documents_fts projection, populated by the AFTER INSERT
trigger with (title, content, keywords, section, docType). -/
structure FtsRow where
  title : String
  content : String
  keywords : List String
  sectionLabel : String
  docType : String
deriving DecidableEq

structure Store where
  documents : List Row
  fts : List FtsRow
deriving DecidableEq

def emptyStore : Store := { documents := [], fts := [] }

inductive SqlError where
  | noSuchColumn (col : String)
  | uniqueViolation
deriving DecidableEq

def rowOfDoc (d : Doc) : Row :=
  { id := d.id, title := d.title, content := d.content,
    sectionLabel := d.sectionLabel, docType := d.docType, url := d.url,
    keywords := d.keywords }

def ftsOfDoc (d : Doc) : FtsRow :=
  { title := d.title, content := d.content, keywords := d.keywords,
    sectionLabel := d.sectionLabel, docType := d.docType }

/-- `insertDocument`: INSERT INTO documents; the id is the primary key, so a
duplicate makes the statement fail; on success the trigger also inserts the
fts row.  codeExamples is not among the stored columns. -/
def insertDocument (s : Store) (d : Doc) : Except SqlError Store :=
  if s.documents.any (fun r => r.id == d.id) then .error .uniqueViolation
  else .ok { documents := s.documents ++ [rowOfDoc d],
             fts := s.fts ++ [ftsOfDoc d] }

/-- `processHtmlFile`: extract, then insert; any thrown error (including a
failed insert) is caught and reported as `false` with the store unchanged. -/
def processHtmlFile (s : Store) (h : HtmlFile) (docType : String) : Store × Bool :=
  match extractDocument h docType with
  | none => (s, false)
  | some d =>
    match insertDocument s d with
    | .ok s' => (s', true)
    | .error _ => (s, false)

/-- `initDatabase`: DROP TABLE IF EXISTS documents / documents_fts (dropping
a table also drops its trigger), then CREATE both afresh — the store after
initialization is empty whatever it held before. -/
def initDatabase (_s : Store) : Store := emptyStore

/-- The corpus walked by one indexing run: the HTML files found under each
of the three configured documentation directories; `none` models a missing
directory (fs.access throws and the whole type is skipped). -/
structure Corpus where
  userManual : Option (List HtmlFile)
  scriptingReference : Option (List HtmlFile)
  pythonReference : Option (List HtmlFile)

/-- `indexDocumentationType`: process every found file in order, skipping
the type entirely when its directory is missing. -/
def indexDocumentationType (s : Store) (docType : String) :
    Option (List HtmlFile) → Store
  | none => s
  | some files => files.foldl (fun st h => (processHtmlFile st h docType).1) s

/-- `indexAllDocumentation`: the three types in source order. -/
def indexAllDocumentation (s : Store) (c : Corpus) : Store :=
  let s1 := indexDocumentationType s "user-manual" c.userManual
  let s2 := indexDocumentationType s1 "scripting-reference" c.scriptingReference
  indexDocumentationType s2 "python-reference" c.pythonReference

/-- One full indexing run: `initialize()` (initDatabase) followed by
`indexAllDocumentation()`. -/
def runIndex (s : Store) (c : Corpus) : Store :=
  indexAllDocumentation (initDatabase s) c

/-! ## Query-side data and the regex code extractor of src/search.ts -/

/-- The DocumentSection record as materialized by the query layer.  The
TypeScript interface declares docType as the enum, but the value actually
assigned by the readers is `row.doc_type`, which is undefined because the
column is named docType; hence `Option String` here (the indexer fills
`some`, the readers fill `none`). -/
structure DocumentSection where
  id : String
  title : String
  content : String
  url : String
  docType : Option String
  sectionLabel : String
  codeExamples : List String
  keywords : List String
deriving DecidableEq

/-- Greedy literal: consume exactly `lit`. -/
def litP (lit : List Char) (l : List Char) : Option (Nat × List Char) :=
  if lit.isPrefixOf l then some (lit.length, l.drop lit.length) else none

/-- Greedy `+` over a character class.  In each of the five patterns below
the class is disjoint from what follows it, so maximal munch is exactly the
backtracking regex semantics. -/
def plusP (p : Char → Bool) (l : List Char) : Option (Nat × List Char) :=
  let t := l.takeWhile p
  if t.isEmpty then none else some (t.length, l.drop t.length)

/-- Greedy `*` over a character class (same disjointness argument). -/
def starP (p : Char → Bool) (l : List Char) : Option (Nat × List Char) :=
  let t := l.takeWhile p
  some (t.length, l.drop t.length)

def isWordDot (c : Char) : Bool := isWordChar c || c = '.'

/-- Pattern `DeadlineCon\.[\w.]+\([^)]*\)` at the current position. -/
def matchDeadlineCall (l : List Char) : Option Nat :=
  (litP "DeadlineCon.".data l).bind fun a =>
  (plusP isWordDot a.2).bind fun b =>
  (litP ['('] b.2).bind fun c =>
  (starP (fun ch => ch ≠ ')') c.2).bind fun d =>
  (litP [')'] d.2).map fun e => a.1 + b.1 + c.1 + d.1 + e.1

/-- Pattern `import\s+[\w.]+` at the current position. -/
def matchImportStmt (l : List Char) : Option Nat :=
  (litP ['i','m','p','o','r','t'] l).bind fun a =>
  (plusP isJsWs a.2).bind fun b =>
  (plusP isWordDot b.2).map fun c => a.1 + b.1 + c.1

/-- Pattern `def\s+\w+\([^)]*\):` at the current position. -/
def matchDefStmt (l : List Char) : Option Nat :=
  (litP ['d','e','f'] l).bind fun a =>
  (plusP isJsWs a.2).bind fun b =>
  (plusP isWordChar b.2).bind fun c =>
  (litP ['('] c.2).bind fun d =>
  (starP (fun ch => ch ≠ ')') d.2).bind fun e =>
  (litP [')'] e.2).bind fun f =>
  (litP [':'] f.2).map fun g => a.1 + b.1 + c.1 + d.1 + e.1 + f.1 + g.1

/-- Pattern `class\s+\w+[\w\s(,)]*:` at the current position. -/
def matchClassStmt (l : List Char) : Option Nat :=
  (litP ['c','l','a','s','s'] l).bind fun a =>
  (plusP isJsWs a.2).bind fun b =>
  (plusP isWordChar b.2).bind fun c =>
  (starP (fun ch => isWordChar ch || isJsWs ch || ch = '(' || ch = ',' || ch = ')') c.2).bind fun d =>
  (litP [':'] d.2).map fun e => a.1 + b.1 + c.1 + d.1 + e.1

/-- Pattern `\w+\s*=\s*DeadlineCon\.\w+` at the current position. -/
def matchAssignment (l : List Char) : Option Nat :=
  (plusP isWordChar l).bind fun a =>
  (starP isJsWs a.2).bind fun b =>
  (litP ['='] b.2).bind fun c =>
  (starP isJsWs c.2).bind fun d =>
  (litP "DeadlineCon.".data d.2).bind fun e =>
  (plusP isWordChar e.2).map fun f => a.1 + b.1 + c.1 + d.1 + e.1 + f.1

/-- Global regex scan, `String.prototype.match` with the `g` flag: at each
position try the pattern; on a match emit it and continue after it (JS
advances at least one position even on an empty match), else move on by one
character.  Fuel is the list length. -/
def scanMatchesGo (pat : List Char → Option Nat) : Nat → List Char → List String
  | 0, _ => []
  | _ + 1, [] => []
  | fuel + 1, c :: cs =>
    match pat (c :: cs) with
    | some n =>
      let step := max n 1
      String.mk ((c :: cs).take step) :: scanMatchesGo pat fuel ((c :: cs).drop step)
    | none => scanMatchesGo pat fuel cs

def scanMatches (pat : List Char → Option Nat) (s : String) : List String :=
  scanMatchesGo pat s.data.length s.data

/-- The regex-based extractCodeExamples of src/search.ts: up to three
matches per pattern, patterns in source order, then de-duplicated. -/
def searchExtractCodeExamples (content : String) : List String :=
  dedupKeepFirst
    ((scanMatches matchDeadlineCall content).take 3 ++
     (scanMatches matchImportStmt content).take 3 ++
     (scanMatches matchDefStmt content).take 3 ++
     (scanMatches matchClassStmt content).take 3 ++
     (scanMatches matchAssignment content).take 3)

/-- The row-to-DocumentSection mapping shared verbatim by getDocumentById,
searchDocumentation and browseSections: `row.section || ''` is the identity
on strings (only "" is falsy and maps to ""), `row.doc_type` is undefined,
keywords is JSON-parsed, codeExamples is recomputed from the stored
content by the regex extractor. -/
def rowToSection (r : Row) : DocumentSection :=
  { id := r.id, title := r.title, content := r.content,
    sectionLabel := r.sectionLabel,
    docType := none,
    url := r.url, keywords := r.keywords,
    codeExamples := searchExtractCodeExamples r.content }

/-- `getDocumentById`: SELECT * FROM documents WHERE id = ?, first row in
rowid order, mapped as above; `null` resolves to `none`. -/
def getDocumentById (id : String) (s : Store) : Option DocumentSection :=
  (s.documents.find? (fun r => r.id == id)).map rowToSection

/-- SQLite LIKE with a `%needle%` pattern: case-insensitive (ASCII)
substring containment.  Wildcard characters inside the needle itself are
not modelled (no claim depends on them). -/
def likeContains (col needle : String) : Bool :=
  jsIncludes (jsToLower col) (jsToLower needle)

def insertRowByTitle (r : Row) : List Row → List Row
  | [] => [r]
  | x :: xs => if r.title ≤ x.title then r :: x :: xs else x :: insertRowByTitle r xs

/-- ORDER BY title (ascending, BINARY collation; ties in arbitrary order). -/
def sortByTitle : List Row → List Row
  | [] => []
  | r :: rs => insertRowByTitle r (sortByTitle rs)

/-- `browseSections(section, docType?)`: without a filter the statement
prepares (SELECT * only) and returns rows whose section or title contains
the needle, ordered by title, LIMIT 20; with a filter the appended
`AND doc_type = ?` names a column the table does not have, so the statement
fails to prepare and the call rejects. -/
def browseSections (sec : String) (docType : Option String) (s : Store) :
    Except SqlError (List DocumentSection) :=
  match docType with
  | some _ => .error (.noSuchColumn "doc_type")
  | none =>
    let rows := s.documents.filter
      (fun r => likeContains r.sectionLabel sec || likeContains r.title sec)
    .ok (((sortByTitle rows).take 20).map rowToSection)

structure StatsResult where
  total : Nat
  byType : List (String × Nat)
deriving DecidableEq

/-- `getStats`: the first query (SELECT COUNT(*)) succeeds, but the second
one (SELECT doc_type, COUNT(*) ... GROUP BY doc_type) names a column the
documents table does not have — the column is docType — so the promise
rejects for every store. -/
def getStats (s : Store) : Except SqlError StatsResult :=
  let _total := s.documents.length
  .error (.noSuchColumn "doc_type")

/-- A search hit: the mapped document, the fts5 rank (lower = better) and
the highlighted excerpts. -/
structure SearchResult where
  sectionDoc : DocumentSection
  score : Rat
  matchTexts : List String
deriving DecidableEq

/-- `searchDocumentation(query, docType?, limit)`: the SELECT list contains
`d.doc_type`, which the documents table does not have (the column is
docType), so statement preparation fails and the call rejects for every
query, filter, limit and store. -/
def searchDocumentation (_query : String) (_docType : Option String)
    (_limit : Nat) (_s : Store) : Except SqlError (List SearchResult) :=
  .error (.noSuchColumn "d.doc_type")

/-- Number of results a query-layer call hands back: none on rejection. -/
def exceptCount : Except SqlError (List α) → Nat
  | .error _ => 0
  | .ok l => l.length

/-! ## Remote fallback (RemoteDeadlineSearch) -/

def userManualUrl : String :=
  "https://docs.thinkboxsoftware.com/products/deadline/10.4/1_User%20Manual/"

def scriptingRefUrl : String :=
  "https://docs.thinkboxsoftware.com/products/deadline/10.4/2_Scripting%20Reference/"

def pythonRefUrl : String :=
  "https://docs.thinkboxsoftware.com/products/deadline/10.4/3_Python%20Reference/"

def genericDeadlineUrl : String :=
  "https://docs.thinkboxsoftware.com/products/deadline/10.4/"

/-- Names of the members every plain object literal inherits from
Object.prototype and which a bracket read can therefore reach: each yields
a truthy, non-string value (a function, or for the last one the prototype
object itself). -/
def objectProtoMembers : List String :=
  ["constructor", "hasOwnProperty", "isPrototypeOf", "propertyIsEnumerable",
   "toLocaleString", "toString", "valueOf",
   "__defineGetter__", "__defineSetter__", "__lookupGetter__",
   "__lookupSetter__", "__proto__"]

/-- A JS value readable from the `baseUrls` object: one of its own string
properties, or an inherited Object.prototype member (truthy, not a
string). -/
inductive JsValue where
  | str (s : String)
  | protoMember (name : String)
deriving DecidableEq

/-- `this.baseUrls[docType]`: a JS bracket read on the object literal.  It
walks the prototype chain, so besides the three own keys the names of
inherited Object.prototype members are found too; only all remaining keys
give undefined (`none`). -/
def remoteBaseUrls (docType : String) : Option JsValue :=
  if docType = "user-manual" then some (.str userManualUrl)
  else if docType = "scripting-reference" then some (.str scriptingRefUrl)
  else if docType = "python-reference" then some (.str pythonRefUrl)
  else if objectProtoMembers.contains docType then some (.protoMember docType)
  else none

/-- `this.baseUrls[docType] || genericUrl`: the fallback fires only when
the read is undefined (falsy); inherited prototype members are truthy and
pass through unchanged. -/
def remoteUrlSlot (docType : String) : JsValue :=
  (remoteBaseUrls docType).getD (.str genericDeadlineUrl)

/-- The canned job-submission result of getCuratedResults. -/
def curatedJobSubmission : SearchResult :=
  { sectionDoc :=
    { id := "python-reference:job-submission",
      title := "Job Submission with Python",
      content := "To submit jobs to Deadline using Python, use the DeadlineCon class:\n\nimport Deadline.DeadlineConnect as Connect\n\n# Connect to Deadline\ndeadline = Connect.DeadlineCon(\x27localhost\x27, 8082)\n\n# Create job info\nJobInfo = \x7b\n    \"Name\": \"My Render Job\",\n    \"UserName\": \"username\", \n    \"Frames\": \"1-100\",\n    \"Plugin\": \"Maya\"\n\x7d\n\n# Create plugin info\nPluginInfo = \x7b\n    \"Version\": \"2023\",\n    \"SceneFile\": \"/path/to/scene.ma\"\n\x7d\n\n# Submit the job\nresult = deadline.Jobs.SubmitJob(JobInfo, PluginInfo)",
      url := pythonRefUrl,
      docType := some "python-reference",
      sectionLabel := "Job Submission",
      codeExamples :=
        ["import Deadline.DeadlineConnect as Connect\ndeadline = Connect.DeadlineCon(\"localhost\", 8082)\nresult = deadline.Jobs.SubmitJob(JobInfo, PluginInfo)"],
      keywords := ["submit", "job", "python", "DeadlineCon"] },
    score := 0.9,
    matchTexts := ["Job submission using Python API"] }

/-- The canned DeadlineCon-connection result of getCuratedResults. -/
def curatedDeadlineCon : SearchResult :=
  { sectionDoc :=
    { id := "python-reference:deadlinecon",
      title := "DeadlineCon Connection",
      content := "DeadlineCon is the main class for connecting to Deadline Web Service:\n\nimport Deadline.DeadlineConnect as Connect\n\n# Create connection\nconnectionObject = Connect.DeadlineCon(\x27WebServiceName\x27, 8082)\n\n# Available methods:\n# - connectionObject.Jobs.GetJobs()\n# - connectionObject.Jobs.SubmitJob(jobInfo, pluginInfo)\n# - connectionObject.Groups.GetGroupNames()\n# - connectionObject.Repository.GetRootDirectory()",
      url := pythonRefUrl,
      docType := some "python-reference",
      sectionLabel := "DeadlineCon",
      codeExamples :=
        ["import Deadline.DeadlineConnect as Connect\nconnectionObject = Connect.DeadlineCon(\"localhost\", 8082)"],
      keywords := ["DeadlineCon", "connection", "web service"] },
    score := 0.95,
    matchTexts := ["DeadlineCon connection examples"] }

/-- The canned plugin-development result of getCuratedResults. -/
def curatedPluginDev : SearchResult :=
  { sectionDoc :=
    { id := "scripting-reference:plugin-development",
      title := "Plugin Development",
      content := "Deadline plugins are Python scripts that define how applications are launched and monitored. Key components:\n\n1. Plugin Info File (.param) - Defines plugin parameters\n2. Plugin Script (.py) - Contains the plugin logic\n3. Event Plugin (optional) - Handles job events\n\nBasic plugin structure:\n- GetPluginInfo() - Returns plugin information\n- InitializeProcess() - Sets up the render process\n- StartJob() - Called when job starts\n- RenderTasks() - Main rendering logic",
      url := scriptingRefUrl,
      docType := some "scripting-reference",
      sectionLabel := "Plugin Development",
      codeExamples := [],
      keywords := ["plugin", "development", "scripting"] },
    score := 0.85,
    matchTexts := ["Plugin development guide"] }

/-- The catch-all general-help result of getCuratedResults, pushed when no
keyed entry matched. -/
def generalHelpResult : SearchResult :=
  { sectionDoc :=
    { id := "general:help",
      title := "Deadline Documentation Help",
      content := "I can help you with Deadline documentation queries. Try asking about:\n\n- Job submission with Python\n- DeadlineCon connection examples  \n- Plugin development\n- Repository configuration\n- Worker/Slave management\n- Event plugins\n\nFor complete documentation, visit:\n- User Manual: https://docs.thinkboxsoftware.com/products/deadline/10.4/1_User%20Manual/\n- Scripting Reference: https://docs.thinkboxsoftware.com/products/deadline/10.4/2_Scripting%20Reference/\n- Python Reference: https://docs.thinkboxsoftware.com/products/deadline/10.4/3_Python%20Reference/",
      url := genericDeadlineUrl,
      docType := some "user-manual",
      sectionLabel := "General Help",
      codeExamples := [],
      keywords := ["help", "documentation", "deadline"] },
    score := 0.5,
    matchTexts := ["General documentation help"] }

/-- `getCuratedResults(query, docType?)`: substring-keyed pushes in source
order; the docType argument is accepted but never consulted; the general
help entry is pushed exactly when nothing else matched. -/
def getCuratedResults (q : String) (_docType : Option String) : List SearchResult :=
  let lowerQuery := jsToLower q
  let r1 := if jsIncludes lowerQuery "submit" && jsIncludes lowerQuery "job"
            then [curatedJobSubmission] else []
  let r2 := if jsIncludes lowerQuery "deadlinecon" || jsIncludes lowerQuery "connection"
            then [curatedDeadlineCon] else []
  let r3 := if jsIncludes lowerQuery "plugin" &&
               (jsIncludes lowerQuery "create" || jsIncludes lowerQuery "develop")
            then [curatedPluginDev] else []
  let results := r1 ++ r2 ++ r3
  if results.isEmpty then [generalHelpResult] else results

/-- Remote `searchDocumentation`: curated results, `slice(0, limit)`. -/
def remoteSearchDocumentation (q : String) (docType : Option String)
    (lim : Nat) : List SearchResult :=
  (getCuratedResults q docType).take lim

/-- The part of the id before the first colon (the whole id when it has no
colon): `id.split(':')[0]`. -/
def idPrefixBeforeColon (id : String) : String :=
  (splitOnPred (fun c => c = ':') id).headD ""

/-- A template literal with one interpolation hole: the literal text before
the hole and the JS value interpolated at it.  When the value is a string
the resulting JS string is their concatenation; for an inherited prototype
member the stringification is engine-defined (Function.prototype.toString
on native functions, "[object Object]" for the prototype object), so the
model keeps the template unevaluated rather than invent a rendering. -/
structure JsTemplate where
  before : String
  value : JsValue
deriving DecidableEq

/-- The record fabricated by remote getDocumentById.  It has the
DocumentSection shape, but the url slot — and the content built by
interpolating it — can hold an inherited Object.prototype member instead of
the string the TypeScript type promises, so those two slots are typed by
JsValue and JsTemplate here. -/
structure RemoteDoc where
  id : String
  title : String
  content : JsTemplate
  url : JsValue
  docType : Option String
  sectionLabel : String
  codeExamples : List String
  keywords : List String
deriving DecidableEq

/-- Remote `getDocumentById`: always fabricates a document from the id
alone; the doc type is read off the id prefix and the url slot is the
bracket read with its falsy-only fallback (see remoteUrlSlot). -/
def remoteGetDocumentById (id : String) : Option RemoteDoc :=
  let parts := splitOnPred (fun c => c = ':') id
  let docType := parts.headD ""
  let sectionLabel := String.intercalate ":" parts.tail
  let url := remoteUrlSlot docType
  some
    { id := id,
      title := "Remote Documentation: " ++ sectionLabel,
      content :=
        { before := "This content is available in the online Deadline documentation. Please visit: ",
          value := url },
      url := url,
      docType := some docType,
      sectionLabel := sectionLabel,
      codeExamples := [],
      keywords := [] }

/-- The canned Jobs section of getCommonSections. -/
def curatedJobsSection : DocumentSection :=
  { id := "user-manual:jobs",
    title := "Jobs Overview",
    content := "Jobs are the fundamental unit of work in Deadline. Visit the online documentation for complete details.",
    url := userManualUrl,
    docType := some "user-manual",
    sectionLabel := "Jobs",
    codeExamples := [],
    keywords := ["jobs", "submission", "management"] }

/-- Remote `getDocumentsBySection` via getCommonSections: one canned entry
when the section name contains "job", else nothing. -/
def remoteGetDocumentsBySection (sec : String) (_docType : Option String) :
    List DocumentSection :=
  if jsIncludes (jsToLower sec) "job" then [curatedJobsSection] else []

/-! ## Claim-level predicates and concrete fixtures -/

set_option maxRecDepth 40000

/-- Whether a string contains two adjacent JS-whitespace characters, i.e. a
whitespace run longer than a single space. -/
def hasWsRun2 (s : String) : Bool :=
  (s.data.zip s.data.tail).any (fun p => isJsWs p.1 && isJsWs p.2)

/-- The first character, when there is one, is not JS whitespace. -/
def noLeadWs (l : List Char) : Bool :=
  match l.head? with
  | some c => !isJsWs c
  | none => true

/-- Trimmed on both ends: neither the first nor the last character is JS
whitespace. -/
def isTrimmedB (s : String) : Bool :=
  noLeadWs s.data && noLeadWs s.data.reverse

/-- All-field agreement between an indexed document and a query-layer
DocumentSection, the equality the round-trip claim asserts. -/
def fieldsAgree (d : Doc) (r : DocumentSection) : Prop :=
  r.id = d.id ∧ r.title = d.title ∧ r.content = d.content ∧
  r.sectionLabel = d.sectionLabel ∧ r.docType = some d.docType ∧
  r.url = d.url ∧ r.keywords = d.keywords ∧ r.codeExamples = d.codeExamples

instance (d : Doc) (r : DocumentSection) : Decidable (fieldsAgree d r) := by
  unfold fieldsAgree; infer_instance

/-- A synthetic user-manual page, substantive enough to be stored, carrying
one DOM-extracted code example. -/
def h1ex : HtmlFile :=
  { titleTag := some "Deadline Docs",
    h1 := some "Submitting Jobs",
    mainText := some "Submitting jobs to the render farm requires a plugin and a pool to be configured.",
    rawHtml := "<html><body>Submitting jobs overview</body></html>",
    codeTexts := ["print(RepositoryUtils.GetRootDirectory())"],
    fileName := "submitting",
    filePath := "docs/jobs/submitting.html",
    relativePath := "jobs/submitting.html" }

/-- A synthetic page whose extracted main content ("short") is far below
the 50-character gate. -/
def h0ex : HtmlFile :=
  { titleTag := some "Tiny", h1 := none, mainText := some "short",
    rawHtml := "<html>short</html>", codeTexts := [], fileName := "tiny",
    filePath := "docs/t/tiny.html", relativePath := "t/tiny.html" }

/-- A concrete document for exercising insert-then-get. -/
def d0ex : Doc :=
  { id := "user-manual:intro.html", title := "Introduction",
    content := "Deadline overview text ", sectionLabel := "intro",
    docType := "user-manual", url := "intro.html",
    keywords := ["deadline"], codeExamples := [] }

/-! ## Helper lemmas -/

theorem noLeadWs_dropWhile (l : List Char) :
    noLeadWs (l.dropWhile isJsWs) = true := by
  induction l with
  | nil => rfl
  | cons c cs ih =>
    by_cases h : isJsWs c = true
    · simpa [List.dropWhile, h] using ih
    · simp only [Bool.not_eq_true] at h
      simp [List.dropWhile, h, noLeadWs]

theorem getLast?_dropWhile (p : Char → Bool) (l : List Char)
    (hne : l.dropWhile p ≠ []) : (l.dropWhile p).getLast? = l.getLast? := by
  induction l with
  | nil => simp at hne
  | cons c cs ih =>
    by_cases h : p c = true
    · rw [List.dropWhile_cons_of_pos h] at hne ⊢
      cases cs with
      | nil => simp at hne
      | cons b bs => rw [ih hne, List.getLast?_cons_cons]
    · simp only [Bool.not_eq_true] at h
      simp [List.dropWhile, h]

theorem mem_of_mem_dropWhileWs {a : Char} {p : Char → Bool} {l : List Char}
    (h : a ∈ l.dropWhile p) : a ∈ l :=
  (List.dropWhile_sublist (p := p) (l := l)).mem h

theorem mem_jsTrimList {a : Char} {l : List Char} (h : a ∈ jsTrimList l) :
    a ∈ l := by
  unfold jsTrimList at h
  have h1 := mem_of_mem_dropWhileWs h
  rw [List.mem_reverse] at h1
  have h2 := mem_of_mem_dropWhileWs h1
  rwa [List.mem_reverse] at h2

theorem trimmed_jsTrimList (l : List Char) :
    noLeadWs (jsTrimList l) = true ∧ noLeadWs (jsTrimList l).reverse = true := by
  unfold jsTrimList
  refine ⟨noLeadWs_dropWhile _, ?_⟩
  cases hX : (l.reverse.dropWhile isJsWs).reverse.dropWhile isJsWs with
  | nil => simp [noLeadWs]
  | cons c cs =>
    have hne : (l.reverse.dropWhile isJsWs).reverse.dropWhile isJsWs ≠ [] := by
      rw [hX]; exact List.cons_ne_nil c cs
    have hlast := getLast?_dropWhile isJsWs (l.reverse.dropWhile isJsWs).reverse hne
    rw [hX] at hlast
    have hN := noLeadWs_dropWhile l.reverse
    rw [← hX]
    unfold noLeadWs
    rw [List.head?_reverse, hX, hlast, List.getLast?_reverse]
    cases hNn : l.reverse.dropWhile isJsWs with
    | nil =>
      exfalso
      apply hne
      rw [hNn]
      rfl
    | cons c0 cs0 =>
      rw [hNn] at hN
      unfold noLeadWs at hN
      simpa using hN

theorem find?_eq_of_fresh (l : List Row) (x : Row) (p : Row → Bool)
    (h : ∀ r ∈ l, p r = false) (hx : p x = true) :
    List.find? p (l ++ [x]) = some x := by
  induction l with
  | nil => simp [List.find?, hx]
  | cons a as ih =>
    have ha := h a (by simp)
    simp only [List.cons_append, List.find?, ha]
    exact ih (fun r hr => h r (by simp [hr]))

/-! ## Claim theorems -/

/-- C1 (amended): for every document accepted by insertDocument, getById on
its id returns a result agreeing with the indexed document on the six
persisted-and-returned fields id, title, content, section, url, keywords.
The two remaining fields do not round-trip: documentType is read off the
nonexistent doc_type column (undefined) and codeExamples is recomputed from
content by the search-side regex extractor. -/
theorem c1_round_trip_amended (s : Store) (d : Doc) (s' : Store)
    (h : insertDocument s d = .ok s') :
    ∃ r, getDocumentById d.id s' = some r ∧ r.id = d.id ∧ r.title = d.title ∧
      r.content = d.content ∧ r.sectionLabel = d.sectionLabel ∧
      r.url = d.url ∧ r.keywords = d.keywords := by
  unfold insertDocument at h
  split at h
  · exact absurd h (by simp)
  · next hc =>
    cases h
    refine ⟨rowToSection (rowOfDoc d), ?_, rfl, rfl, rfl, rfl, rfl, rfl⟩
    unfold getDocumentById
    rw [find?_eq_of_fresh]
    · rfl
    · intro r hr
      cases hpr : r.id == d.id
      · rfl
      · exact absurd (List.any_eq_true.mpr ⟨r, hr, hpr⟩) hc
    · show ((rowOfDoc d).id == d.id) = true
      simp [rowOfDoc]

/-- C1 witness: a concrete insert into the empty store followed by getById,
with the six-field agreement realized. -/
theorem c1_round_trip_witness :
    insertDocument emptyStore d0ex =
      .ok { documents := [rowOfDoc d0ex], fts := [ftsOfDoc d0ex] } ∧
    (∃ r, getDocumentById d0ex.id
        { documents := [rowOfDoc d0ex], fts := [ftsOfDoc d0ex] } = some r ∧
      r.id = d0ex.id ∧ r.title = d0ex.title ∧ r.content = d0ex.content ∧
      r.sectionLabel = d0ex.sectionLabel ∧ r.url = d0ex.url ∧
      r.keywords = d0ex.keywords) :=
  ⟨rfl, c1_round_trip_amended emptyStore d0ex _ rfl⟩

/-- C1 counterexample: indexing the synthetic page h1ex stores a document
with docType "user-manual" and one DOM-extracted code example, but getById
returns docType undefined (none) and no code examples, so the stored
document and the retrieved one do not agree in all fields. -/
theorem c1_counterexample :
    (processHtmlFile emptyStore h1ex "user-manual").2 = true ∧
    (extractDocument h1ex "user-manual").map Doc.docType = some "user-manual" ∧
    (extractDocument h1ex "user-manual").map Doc.codeExamples =
      some ["print(RepositoryUtils.GetRootDirectory())"] ∧
    (getDocumentById "user-manual:jobs/submitting.html"
       (processHtmlFile emptyStore h1ex "user-manual").1).map
        (fun r => (r.docType, r.codeExamples)) = some (none, []) ∧
    ((extractDocument h1ex "user-manual").bind (fun d =>
       (getDocumentById d.id (processHtmlFile emptyStore h1ex "user-manual").1).map
         (fun r => decide (fieldsAgree d r)))) = some false :=
  ⟨by decide, by decide, by decide, by decide, by decide⟩

/-- C2: with a docType filter both searchDocumentation and browseSections
append a condition on the column doc_type, which the documents table (whose
column is docType) does not have, so both statements fail to prepare and
both calls reject for every input — no filtered result set is ever
produced. -/
theorem c2_filtered_queries_reject :
    (∀ (q : String) (dt : String) (lim : Nat) (s : Store),
       searchDocumentation q (some dt) lim s =
         .error (.noSuchColumn "d.doc_type")) ∧
    (∀ (sec : String) (dt : String) (s : Store),
       browseSections sec (some dt) s = .error (.noSuchColumn "doc_type")) :=
  ⟨fun _ _ _ _ => rfl, fun _ _ _ => rfl⟩

/-- C3: getStats rejects for every store: its per-type query names the
column doc_type while the documents table created by the indexer has
docType, so the call never succeeds, let alone returns counts. -/
theorem c3_stats_rejects (s : Store) :
    getStats s = .error (.noSuchColumn "doc_type") := rfl

/-- C4 counterexample: on the remote fallback backend, search with the
empty query does not fail — it successfully returns the curated
general-help result. -/
theorem c4_counterexample :
    remoteSearchDocumentation "" none 10 = [generalHelpResult] ∧
    (remoteSearchDocumentation "" none 10).length = 1 :=
  ⟨rfl, rfl⟩

/-- C4 (amended): the local store-backed search rejects every query — the
empty one included — with a storage error; the remote fallback search never
fails, and on the empty query returns the curated general-help result
(truncated to the limit). -/
theorem c4_empty_query_amended :
    (∀ (dt : Option String) (lim : Nat) (s : Store),
       searchDocumentation "" dt lim s = .error (.noSuchColumn "d.doc_type")) ∧
    (∀ (dt : Option String) (lim : Nat),
       remoteSearchDocumentation "" dt lim = [generalHelpResult].take lim) :=
  ⟨fun _ _ _ => rfl, fun _ _ => rfl⟩

/-- C5: the number of results handed back is never more than the limit:
local search (which in fact always rejects, yielding zero results), remote
search (slice(0, limit)), local browseSections (LIMIT 20) and remote
getDocumentsBySection (at most one canned entry). -/
theorem c5_limit_invariant :
    (∀ (q : String) (dt : Option String) (lim : Nat) (s : Store),
       exceptCount (searchDocumentation q dt lim s) ≤ lim) ∧
    (∀ (q : String) (dt : Option String) (lim : Nat),
       (remoteSearchDocumentation q dt lim).length ≤ lim) ∧
    (∀ (sec : String) (dt : Option String) (s : Store),
       exceptCount (browseSections sec dt s) ≤ 20) ∧
    (∀ (sec : String) (dt : Option String),
       (remoteGetDocumentsBySection sec dt).length ≤ 20) := by
  refine ⟨fun _ _ _ _ => Nat.zero_le _, fun q dt lim => ?_,
          fun sec dt s => ?_, fun sec dt => ?_⟩
  · unfold remoteSearchDocumentation
    exact List.length_take_le lim (getCuratedResults q dt)
  · cases dt with
    | none =>
      simp only [browseSections, exceptCount]
      rw [List.length_map]
      exact List.length_take_le _ _
    | some dtv => exact Nat.zero_le _
  · unfold remoteGetDocumentsBySection
    split
    · simp
    · simp

/-- C6: when the extracted main content normalizes to fewer than 50
characters, processHtmlFile stores nothing and reports false, whatever the
title situation is. -/
theorem c6_short_content_drop (s : Store) (h : HtmlFile) (dt : String)
    (hlen : (extractMainContent h).length < 50) :
    processHtmlFile s h dt = (s, false) := by
  unfold processHtmlFile extractDocument
  cases hnav : isNavigationPage (resolveTitle h) h.rawHtml
  · simp [hnav, hlen]
  · simp [hnav]

/-- C6 witness: the synthetic short page h0ex ("short", 5 characters) is
dropped by a concrete run. -/
theorem c6_short_content_witness :
    (extractMainContent h0ex).length < 50 ∧
    processHtmlFile emptyStore h0ex "user-manual" = (emptyStore, false) :=
  ⟨by decide, c6_short_content_drop emptyStore h0ex "user-manual" (by decide)⟩

/-- C7: a file is rejected as a navigation page exactly when its resolved
title contains one of the closed indicator phrases (case-insensitively), or
the raw HTML contains "list of" and its overall length is below 1000
characters; the length test has effect only together with the "list of"
phrase, and an indicator title rejects regardless of body length. -/
theorem c7_navigation_page_iff (title content : String) :
    isNavigationPage title content = true ↔
      ((∃ ind ∈ navIndicators,
          jsIncludes (jsToLower title) (jsToLower ind) = true) ∨
       (jsIncludes (jsToLower content) "list of" = true ∧
          (jsToLower content).length < 1000)) := by
  show (navIndicators.any (fun ind =>
    jsIncludes (jsToLower title) (jsToLower ind) ||
    (jsIncludes (jsToLower content) "list of" &&
      decide ((jsToLower content).length < 1000)))) = true ↔ _
  rw [List.any_eq_true]
  constructor
  · rintro ⟨ind, hind, hor⟩
    rw [Bool.or_eq_true] at hor
    rcases hor with hA | hB
    · exact Or.inl ⟨ind, hind, hA⟩
    · rw [Bool.and_eq_true] at hB
      exact Or.inr ⟨hB.1, of_decide_eq_true hB.2⟩
  · rintro (⟨ind, hind, hA⟩ | ⟨hB, hC⟩)
    · exact ⟨ind, hind, by rw [hA]; rfl⟩
    · refine ⟨"Member List", by simp [navIndicators], ?_⟩
      rw [hB, decide_eq_true hC]
      simp

/-- C8 counterexample: cleanText strips characters after collapsing
whitespace, so stripping can leave two adjacent spaces — the normalized
form of "a !? b" is "a  b", which contains a whitespace run of length
two. -/
theorem c8_counterexample :
    cleanText "a !? b" = "a  b" ∧ hasWsRun2 (cleanText "a !? b") = true :=
  ⟨by decide, by decide⟩

/-- C8 (amended): cleanText output is trimmed on both ends and consists
only of safe-set characters (word characters, whitespace, the punctuation
allowlist); the claimed single-space bound on whitespace runs does not
hold, because character stripping happens after whitespace collapsing. -/
theorem c8_cleanText_amended (s : String) :
    isTrimmedB (cleanText s) = true ∧ (cleanText s).data.all keepChar = true := by
  constructor
  · have h := trimmed_jsTrimList
      (List.filter keepChar (replaceNlRuns (collapseWs s.data)))
    unfold isTrimmedB
    have hdata : (cleanText s).data =
        jsTrimList (List.filter keepChar (replaceNlRuns (collapseWs s.data))) := rfl
    rw [hdata, h.1, h.2]
    rfl
  · rw [List.all_eq_true]
    intro c hc
    have h1 : c ∈ List.filter keepChar (replaceNlRuns (collapseWs s.data)) :=
      mem_jsTrimList hc
    exact (List.mem_filter.mp h1).2

/-- C9: a full indexing run starts by dropping and recreating both the
documents table and the fts projection, so a second run over the same
corpus rebuilds the identical store — same rows, same document count, same
stats result. -/
theorem c9_rebuild_idempotent (s : Store) (c : Corpus) :
    runIndex (runIndex s c) c = runIndex s c ∧
    (runIndex (runIndex s c) c).documents.length =
      (runIndex s c).documents.length ∧
    getStats (runIndex (runIndex s c) c) = getStats (runIndex s c) :=
  ⟨rfl, rfl, rfl⟩

/-- C10 counterexample: "constructor" is not one of the three known
document types, yet for id "constructor:a.html" the url slot is the
inherited Object.prototype member found by the bracket read — truthy, so
the fallback to the generic documentation root never fires and the url is
not the generic URL (nor any string). -/
theorem c10_counterexample :
    ("constructor" ∉ ["user-manual", "scripting-reference", "python-reference"]) ∧
    (remoteGetDocumentById "constructor:a.html").map (fun d => d.url) =
      some (JsValue.protoMember "constructor") ∧
    JsValue.protoMember "constructor" ≠ JsValue.str genericDeadlineUrl :=
  ⟨by decide, by decide, by decide⟩

/-- C10 (amended): remote getDocumentById fabricates a document for every
id, never reporting absence: the result's id is the input and its docType
is the id prefix before the first colon.  The url slot is the prototype-
chain bracket read with a falsy-only fallback: it is the generic
documentation root exactly when the prefix is neither a known document
type nor the name of an inherited Object.prototype member; for an
inherited member name (constructor, toString, ...) the truthy member
itself ends up in the url slot. -/
theorem c10_remote_getById_amended (id : String) :
    ∃ d, remoteGetDocumentById id = some d ∧ d.id = id ∧
      d.docType = some (idPrefixBeforeColon id) ∧
      d.url = remoteUrlSlot (idPrefixBeforeColon id) ∧
      (remoteBaseUrls (idPrefixBeforeColon id) = none →
        d.url = .str genericDeadlineUrl) ∧
      (objectProtoMembers.contains (idPrefixBeforeColon id) = true →
        d.url = .protoMember (idPrefixBeforeColon id)) := by
  refine ⟨_, rfl, rfl, rfl, rfl, ?_, ?_⟩
  · intro h
    have h' : remoteBaseUrls ((splitOnPred (fun c => c = ':') id).headD "") = none := h
    show ((remoteBaseUrls ((splitOnPred (fun c => c = ':') id).headD "")).getD
      (.str genericDeadlineUrl)) = .str genericDeadlineUrl
    rw [h']
    rfl
  · intro h
    show remoteUrlSlot (idPrefixBeforeColon id) =
      .protoMember (idPrefixBeforeColon id)
    generalize idPrefixBeforeColon id = p at h ⊢
    unfold remoteUrlSlot remoteBaseUrls
    by_cases h1 : p = "user-manual"
    · subst h1; exact absurd h (by decide)
    · by_cases h2 : p = "scripting-reference"
      · subst h2; exact absurd h (by decide)
      · by_cases h3 : p = "python-reference"
        · subst h3; exact absurd h (by decide)
        · have hm : p ∈ objectProtoMembers := by simpa using h
          simp [h1, h2, h3, hm]

/-- C10 witness: the unknown prefix "custom" falls back to the generic
documentation url, while the inherited member name "toString" does not;
id and docType come back as described. -/
theorem c10_remote_getById_witness :
    (remoteGetDocumentById "custom:a.html").map (fun d => d.url) =
      some (JsValue.str genericDeadlineUrl) ∧
    (remoteGetDocumentById "custom:a.html").map (fun d => (d.id, d.docType)) =
      some ("custom:a.html", some "custom") ∧
    (remoteGetDocumentById "toString:a.html").map (fun d => d.url) =
      some (JsValue.protoMember "toString") := by
  obtain ⟨d, hd, hid, hdt, _, hfall, _⟩ := c10_remote_getById_amended "custom:a.html"
  have hu := hfall (by decide)
  have hp : idPrefixBeforeColon "custom:a.html" = "custom" := by decide
  obtain ⟨e, he, _, _, _, _, hproto⟩ := c10_remote_getById_amended "toString:a.html"
  have hv := hproto (by decide)
  have hq : idPrefixBeforeColon "toString:a.html" = "toString" := by decide
  rw [hq] at hv
  refine ⟨?_, ?_, ?_⟩
  · rw [hd]; simp [hu]
  · rw [hd]; simp [hid, hdt, hp]
  · rw [he]; simp [hv]
